import Mathlib

/-!
Verification development for the `hasoffers` client library
(src/hasoffers/hasoffers.py and src/hasoffers/models.py).

The Python code is shallowly embedded: JSON values become an inductive
`Json` type, Python dicts become association lists in insertion order,
Python exceptions become explicit `Crash` / `ApiErr` outcomes, and the
self-recursive retry loop of `Hasoffers.send` becomes a fuel-indexed
recursion that records the final attempt counter and the sequence of
sleep pauses (in milliseconds).
-/

/-- JSON values.  Numbers are modelled as integers: every number appearing
in the claims (statuses, ids, limits) is integral. -/
inductive Json : Type
  | null : Json
  | bool : Bool → Json
  | num : Int → Json
  | str : String → Json
  | arr : List Json → Json
  | obj : List (String × Json) → Json

/-- Association-list lookup, first match wins (Python dict keys are unique,
so on dict-shaped data this agrees with `d[k]`). -/
def dictGet {α : Type} : List (String × α) → String → Option α
  | [], _ => none
  | (k, v) :: rest, key => if k = key then some v else dictGet rest key

/-- `d[k]` on a Json value: a lookup when `d` is an object, failure
otherwise (non-dict indexing raises in Python; callers treat `none` as the
raised-lookup case). -/
def jget : Json → String → Option Json
  | .obj kvs, k => dictGet kvs k
  | _, _ => none

/-- `d[k]` where the key itself is a Json value (the mapper indexes items by
`model_name`, which is a string in every reachable case). -/
def jgetJ (d : Json) : Json → Option Json
  | .str s => jget d s
  | _ => none

/-- Python truthiness of a JSON-shaped value (`if filters:` etc.). -/
def pyTruthy : Json → Bool
  | .null => false
  | .bool b => b
  | .num n => decide (n ≠ 0)
  | .str s => decide (s.length ≠ 0)
  | .arr xs => decide (xs.length ≠ 0)
  | .obj kvs => decide (kvs.length ≠ 0)

/-- Python `len()` on a JSON-shaped value: defined for strings, lists and
dicts, a TypeError (here `none`) otherwise. -/
def pyLen : Json → Option Nat
  | .str s => some s.length
  | .arr xs => some xs.length
  | .obj kvs => some kvs.length
  | _ => none

/-- Digit-string accumulator for `int("...")`. -/
def digitsToNat : Nat → List Char → Option Nat
  | acc, [] => some acc
  | acc, c :: rest =>
    if c.isDigit then digitsToNat (acc * 10 + (c.toNat - 48)) rest else none

/-- Parse a non-empty run of decimal digits. -/
def parseDigits : List Char → Option Nat
  | [] => none
  | l => digitsToNat 0 l

/-- Parse an optionally signed decimal integer literal. -/
def parseSignedInt : List Char → Option Int
  | '-' :: rest => (parseDigits rest).map (fun n => -(n : Int))
  | '+' :: rest => (parseDigits rest).map (fun n => (n : Int))
  | l => (parseDigits l).map (fun n => (n : Int))

/-- Python `int(v)` on a JSON-shaped value: identity on integers, 0/1 on
booleans, decimal parsing on signed digit strings; everything else raises
(TypeError / ValueError), modelled as `none`. -/
def pyToInt : Json → Option Int
  | .num n => some n
  | .bool b => some (if b then 1 else 0)
  | .str s => parseSignedInt s.data
  | _ => none

/-- Does one character list start with another? -/
def charsPre : List Char → List Char → Bool
  | [], _ => true
  | _ :: _, [] => false
  | a :: as, b :: bs => a == b && charsPre as bs

/-- Substring search over character lists. -/
def charsContain (needle : List Char) : List Char → Bool
  | [] => charsPre needle []
  | c :: rest => charsPre needle (c :: rest) || charsContain needle rest

/-- Python `needle in hay` for strings (substring containment). -/
def pyInStr (needle hay : String) : Bool :=
  charsContain needle.data hay.data

/-- Python `status != 1` is false exactly when the value compares equal to
the integer 1 (`True == 1` holds in Python). -/
def pyEqOne : Json → Bool
  | .num n => decide (n = 1)
  | .bool b => b
  | _ => false

/-- An in-memory entity: the `__dict__` of a `models.Model` instance, in
assignment order.  The `id` field is stored as `Json.num` after coercion. -/
structure Entity where
  fields : List (String × Json)

/-- Python dict assignment `d[k] = v`: overwrite in place, else append. -/
def dictSet : List (String × Json) → String → Json → List (String × Json)
  | [], k, v => [(k, v)]
  | (k', v') :: rest, k, v =>
    if k' = k then (k, v) :: rest else (k', v') :: dictSet rest k v

/-- Exceptions that escape as raw Python errors (not part of the library's
error classes).  The distinctions that matter to the claims are
`keyError` (missing dict key) and `typeError` (`in`/`int()` on an
unsupported operand); the remaining kinds record which statement raised. -/
inductive Crash : Type
  | keyError : Crash
  | typeError : Crash
  | attributeError : Crash
  | jsonDecodeError : Crash
  | exception : Crash

/-- models.Model.__init__: reject non-dict arguments, copy every field,
coercing the value of a field literally named `id` through `int()`. -/
def initFields : List (String × Json) → Except Crash (List (String × Json))
  | [] => .ok []
  | (k, v) :: rest =>
    if k = "id" then
      match pyToInt v with
      | none => .error .typeError
      | some n => (initFields rest).map (fun fs => (k, Json.num n) :: fs)
    else (initFields rest).map (fun fs => (k, v) :: fs)

/-- models.Model constructor: `Model(d)`. -/
def Model.init : Json → Except Crash Entity
  | .obj kvs => (initFields kvs).map Entity.mk
  | _ => .error .exception

/-- The keys of HASOFFERS_ENTITY_MAP (every value is a Model subclass with
the inherited constructor, so only membership matters). -/
def HASOFFERS_ENTITY_MAP : List String :=
  ["Offer", "Advertiser", "Conversion", "Affiliate", "OfferPixel", "Country"]

/-- HasoffersDataMapper.map_one: `HASOFFERS_ENTITY_MAP[object_name](data)`;
a missing key raises KeyError. -/
def HasoffersDataMapper.map_one (name : Json) (data : Json) : Except Crash Entity :=
  match name with
  | .str s => if s ∈ HASOFFERS_ENTITY_MAP then Model.init data else .error .keyError
  | _ => .error .keyError

/-- `obj.__dict__['raw_data'] = scope`. -/
def attachRaw (e : Entity) (scope : Json) : Entity :=
  ⟨dictSet e.fields "raw_data" scope⟩

/-- One iteration of HasoffersDataMapper.map_to_collection's loop body:
`obj = HasoffersDataMapper.map_one(object_name, object_scope[object_name]);
 obj.__dict__['raw_data'] = object_scope`. -/
def HasoffersDataMapper.mapScope (name : Json) (scope : Json) : Except Crash Entity :=
  match jgetJ scope name with
  | none => .error .keyError
  | some frag => (HasoffersDataMapper.map_one name frag).map (fun e => attachRaw e scope)

/-- The loop of HasoffersDataMapper.map_to_collection over `data.items()`, in insertion order. -/
def HasoffersDataMapper.mapItems (name : Json) : List (String × Json) → Except Crash (List Entity)
  | [] => .ok []
  | (_, scope) :: rest =>
    match HasoffersDataMapper.mapScope name scope with
    | .error c => .error c
    | .ok e => (HasoffersDataMapper.mapItems name rest).map (fun es => e :: es)

/-- HasoffersDataMapper.map_to_collection: `None` on an empty sized value,
the entity list otherwise (`.items()` on a non-dict raises). -/
def HasoffersDataMapper.map_to_collection (name : Json) (data : Json) :
    Except Crash (Option (List Entity)) :=
  match pyLen data with
  | none => .error .typeError
  | some 0 => .ok none
  | some (_ + 1) =>
    match data with
    | .obj kvs => (HasoffersDataMapper.mapItems name kvs).map some
    | _ => .error .attributeError

/-- HasoffersDataMapper.map_one_object: `None` on an empty sized value,
else one entity from `data[object_name]` with `raw_data = data`. -/
def HasoffersDataMapper.map_one_object (name : Json) (data : Json) :
    Except Crash (Option Entity) :=
  match pyLen data with
  | none => .error .typeError
  | some 0 => .ok none
  | some (_ + 1) =>
    match jgetJ data name with
    | none => .error .keyError
    | some frag => (HasoffersDataMapper.map_one name frag).map (fun e => some (attachRaw e data))

-- Result-shape codes, verbatim from the source.
def NO : Nat := 1
def INT : Nat := 2
def OBJECT : Nat := 3
def COLLECTION : Nat := 4
def BOOLEAN : Nat := 5

/-- The static (resource, method) classification table. -/
def METHODS_MAPPING : List (String × List (String × Nat)) :=
  [("Offer", [("findById", OBJECT), ("findAll", COLLECTION), ("getPixels", COLLECTION)]),
   ("Conversion", [("findAll", COLLECTION)]),
   ("Affiliate", [("findAll", COLLECTION), ("getOfferPixels", COLLECTION)]),
   ("Advertiser", [("findAll", COLLECTION), ("findById", OBJECT)])]

/-- `target in METHODS_MAPPING and method in METHODS_MAPPING[target]`,
returning the entry when present.  Targets come out of the response JSON,
so they are Json values; only string targets can match the table. -/
def tableLookup (target method : Json) : Option Nat :=
  match target, method with
  | .str t, .str m =>
    match dictGet METHODS_MAPPING t with
    | some inner => dictGet inner m
    | none => none
  | _, _ => none

/-- The mapping type chosen by HasoffersDataMapper.map: the table entry,
defaulting to `NO` for unmapped combinations. -/
def mappingType (target method : Json) : Nat :=
  (tableLookup target method).getD NO

/-- `model_name = request.return_model or target` (an empty string is
falsy, so it also falls back to the target). -/
def resolveModelName (rm : Option String) (target : Json) : Json :=
  match rm with
  | some s => if s.length = 0 then target else .str s
  | none => target

/-- The request state that the dispatcher and mapper consult.  The url and
http verb only feed the external transport, and the attempt counter is
threaded explicitly through `sendAux`. -/
structure Request where
  params : List (String × Json)
  target : String
  return_model : Option String

/-- The fields of a parsed Response that the mapper reads. -/
structure Response where
  target : Json
  method : Json
  data : Json

/-- The limit detection of map's COLLECTION branch:
`'limit' in request.params and request.params['limit']`, then
`int(...) > 0`; a non-coercible truthy limit raises. -/
def limitCheck (params : List (String × Json)) : Except Crash Bool :=
  match dictGet params "limit" with
  | none => .ok false
  | some v =>
    if pyTruthy v then
      match pyToInt v with
      | none => .error .typeError
      | some n => .ok (decide (0 < n))
    else .ok false

/-- `response.data['data']`: the pagination unwrap. -/
def unwrapData : Json → Except Crash Json
  | .obj kvs =>
    match dictGet kvs "data" with
    | some d => .ok d
    | none => .error .keyError
  | _ => .error .typeError

/-- What HasoffersDataMapper.map hands back to the caller. -/
inductive MapResult : Type
  | one : Entity → MapResult
  | many : List Entity → MapResult
  | noneVal : MapResult
  | passthrough : Response → MapResult

/-- Lift a collection-mapping result into a MapResult. -/
def collectionResult (r : Except Crash (Option (List Entity))) :
    Except Crash MapResult :=
  r.map (fun o => match o with | none => .noneVal | some es => .many es)

/-- HasoffersDataMapper.map. -/
def HasoffersDataMapper.map (req : Request) (resp : Response) :
    Except Crash MapResult :=
  let mt := mappingType resp.target resp.method
  let mn := resolveModelName req.return_model resp.target
  if mt = OBJECT then
    (HasoffersDataMapper.map_one_object mn resp.data).map
      (fun o => match o with | none => .noneVal | some e => .one e)
  else if mt = COLLECTION then
    match limitCheck req.params with
    | .error c => .error c
    | .ok true =>
      match unwrapData resp.data with
      | .error c => .error c
      | .ok d => collectionResult (HasoffersDataMapper.map_to_collection mn d)
    | .ok false => collectionResult (HasoffersDataMapper.map_to_collection mn resp.data)
  else .ok (.passthrough resp)

-- ------------------------------------------------------------------
-- Error classification and the retrying dispatcher
-- ------------------------------------------------------------------

/-- The library's error classes, as returned by cast_error.  `unexpected`
is `Error('We received an unexpected error: %r' % result)` (the
malformed-envelope case), `rateLimit` is APIUsageExceededRateLimit, and
`generic` is `Error(errorMessage)`. -/
inductive ApiErr : Type
  | unexpected : ApiErr
  | rateLimit : String → ApiErr
  | generic : String → ApiErr

/-- cast_error either returns a classified error object or itself raises a
raw Python error while classifying. -/
inductive CastOutcome : Type
  | classified : ApiErr → CastOutcome
  | crash : Crash → CastOutcome

def RATE_LIMIT_MSG : String := "API usage exceeded rate limit"

/-- Hasoffers.cast_error.  The membership test
`'API usage exceeded rate limit' in result['response']['errorMessage']`
raises KeyError when the key is absent and TypeError when the message is
not a string (e.g. null). -/
def cast_error (result : Json) : CastOutcome :=
  match jget result "response" with
  | none => .classified .unexpected
  | some resp =>
    match jget resp "status" with
    | none => .classified .unexpected
    | some _ =>
      match jget resp "errorMessage" with
      | none => .crash .keyError
      | some (.str m) =>
        match pyInStr RATE_LIMIT_MSG m with
        | true => .classified (.rateLimit m)
        | false => .classified (.generic m)
      | some _ => .crash .typeError

/-- What one physical attempt observes after the HTTP exchange: the body
fails to parse, the envelope check raises, the status is 1, or an API
error is classified.  `body = none` models a body that is not valid JSON
(json.loads raises). -/
inductive AttemptOutcome : Type
  | parseError : AttemptOutcome
  | statusKeyError : AttemptOutcome
  | success : Json → AttemptOutcome
  | apiError : CastOutcome → AttemptOutcome

/-- Lines 82-97 of send, up to the raise/retry decision:
`result = json.loads(body)`, then
`if 'response' not in result or result['response']['status'] != 1`.
When `response` is present but `status` is missing, the status access
itself raises KeyError before cast_error can run. -/
def attemptOutcome (body : Option Json) : AttemptOutcome :=
  match body with
  | none => .parseError
  | some result =>
    match jget result "response" with
    | none => .apiError (cast_error result)
    | some resp =>
      match jget resp "status" with
      | none => .statusKeyError
      | some st =>
        match pyEqOne st with
        | true => .success result
        | false => .apiError (cast_error result)

/-- retry_count: an integer, or the string TILL_SUCCESS. -/
inductive RetryPolicy : Type
  | count : Int → RetryPolicy
  | tillSuccess : RetryPolicy

/-- The retry predicate of send's except-clause, with `attempts` already
incremented: `retry_count == TILL_SUCCESS`, or
`retry_count > 1 and request.attempts < retry_count`. -/
def shouldRetry (policy : RetryPolicy) (attempts : Nat) : Bool :=
  match policy with
  | .tillSuccess => true
  | .count n => decide (1 < n) && decide ((attempts : Int) < n)

def isRateLimit : ApiErr → Bool
  | .rateLimit _ => true
  | _ => false

/-- Response.__init__: every listed key is accessed (KeyError when
absent); the mapper only reads target, method and data. -/
def buildResponse (result : Json) : Except Crash Response := do
  let reqPart ← match jget result "request" with
    | some v => Except.ok v | none => Except.error Crash.keyError
  let tgt ← match jget reqPart "Target" with
    | some v => Except.ok v | none => Except.error Crash.keyError
  let mth ← match jget reqPart "Method" with
    | some v => Except.ok v | none => Except.error Crash.keyError
  let resp ← match jget result "response" with
    | some v => Except.ok v | none => Except.error Crash.keyError
  let _ ← match jget resp "status" with
    | some v => Except.ok v | none => Except.error Crash.keyError
  let _ ← match jget resp "httpStatus" with
    | some v => Except.ok v | none => Except.error Crash.keyError
  let _ ← match jget resp "errors" with
    | some v => Except.ok v | none => Except.error Crash.keyError
  let _ ← match jget resp "errorMessage" with
    | some v => Except.ok v | none => Except.error Crash.keyError
  let d ← match jget resp "data" with
    | some v => Except.ok v | none => Except.error Crash.keyError
  Except.ok ⟨tgt, mth, d⟩

/-- How one top-level send call ends. -/
inductive SendOutcome : Type
  | raised : ApiErr → SendOutcome
  | uncaught : Crash → SendOutcome
  | mapped : Except Crash MapResult → SendOutcome
  | fuelOut : SendOutcome

/-- The observable result of send: the final outcome, the request's final
attempt counter, and every `time.sleep(0.25)` pause in order (ms). -/
structure SendResult where
  outcome : SendOutcome
  attempts : Nat
  sleeps : List Nat

/-- Hasoffers.send, on a server that answers every attempt with the same
body.  The recursion of the retry loop is fuel-indexed; every claim holds
for all sufficiently large fuel. -/
def sendAux (policy : RetryPolicy) (req : Request) (body : Option Json) :
    Nat → Nat → SendResult
  | 0, att => ⟨.fuelOut, att, []⟩
  | fuel + 1, att =>
    let att1 := att + 1
    match attemptOutcome body with
    | .parseError => ⟨.uncaught .jsonDecodeError, att1, []⟩
    | .statusKeyError => ⟨.uncaught .keyError, att1, []⟩
    | .success result =>
      ⟨.mapped ((buildResponse result).bind (fun resp => HasoffersDataMapper.map req resp)),
       att1, []⟩
    | .apiError (.crash c) => ⟨.uncaught c, att1, []⟩
    | .apiError (.classified e) =>
      match isRateLimit e with
      | false => ⟨.raised e, att1, []⟩
      | true =>
        match shouldRetry policy att1 with
        | false => ⟨.raised e, att1, []⟩
        | true =>
          let r := sendAux policy req body fuel att1
          ⟨r.outcome, r.attempts, 250 :: r.sleeps⟩

/-- Top-level send on a fresh request (attempt counter 0). -/
def send (policy : RetryPolicy) (req : Request) (body : Option Json)
    (fuel : Nat) : SendResult :=
  sendAux policy req body fuel 0

-- ------------------------------------------------------------------
-- Parameter builders
-- ------------------------------------------------------------------

/-- `if arg: _params[key] = arg` — append the pair only when truthy. -/
def appendIf (params : List (String × Json)) (key : String) (v : Json) :
    List (String × Json) :=
  if pyTruthy v then params ++ [(key, v)] else params

/-- Offer.find_all's parameter dict, in insertion order. -/
def Offer.find_all (filters sort limit page fields contain : Json) :
    List (String × Json) :=
  appendIf (appendIf (appendIf (appendIf (appendIf (appendIf
    [("Method", Json.str "findAll")]
    "filters" filters) "sort" sort) "limit" limit) "page" page)
    "fields" fields) "contain" contain

/-- Offer.find_by_id's parameter dict: `fields` and `contain` are set
unconditionally (their defaults are empty lists). -/
def Offer.find_by_id (id fields contain : Json) : List (String × Json) :=
  [("Method", Json.str "findById"), ("id", id),
   ("fields", fields), ("contain", contain)]

/-- Advertiser.find_by_id's parameter dict: same unconditional shape. -/
def Advertiser.find_by_id (id fields contain : Json) :
    List (String × Json) :=
  [("Method", Json.str "findById"), ("id", id),
   ("fields", fields), ("contain", contain)]

-- ------------------------------------------------------------------
-- Helper lemmas
-- ------------------------------------------------------------------

/-- cast_error on an envelope with status and a string errorMessage picks
the rate-limit class exactly on substring match. -/
theorem cast_error_str_msg (result resp st : Json) (m : String)
    (hresp : jget result "response" = some resp)
    (hstat : jget resp "status" = some st)
    (hmsg : jget resp "errorMessage" = some (.str m)) :
    cast_error result = .classified
      (if pyInStr RATE_LIMIT_MSG m then .rateLimit m else .generic m) := by
  simp only [cast_error, hresp, hstat, hmsg]
  cases pyInStr RATE_LIMIT_MSG m <;> simp

/-- A failing status routes the attempt into the classifier. -/
theorem attemptOutcome_fail (result resp st : Json)
    (hresp : jget result "response" = some resp)
    (hstat : jget resp "status" = some st)
    (hne : pyEqOne st = false) :
    attemptOutcome (some result) = .apiError (cast_error result) := by
  simp only [attemptOutcome, hresp, hstat, hne]

/-- C1: for a `status != 1` response whose errorMessage contains
"API usage exceeded rate limit", under retry policy N = 3 the dispatcher
performs exactly 3 physical attempts (the original plus 2 resends), pauses
250 ms before each resend, and then raises APIUsageExceededRateLimit. -/
theorem send_rate_limit_three_attempts (req : Request)
    (result resp st : Json) (m : String) (fuel : Nat)
    (hresp : jget result "response" = some resp)
    (hstat : jget resp "status" = some st)
    (hne : pyEqOne st = false)
    (hmsg : jget resp "errorMessage" = some (.str m))
    (hc : pyInStr RATE_LIMIT_MSG m = true)
    (hfuel : 3 ≤ fuel) :
    send (.count 3) req (some result) fuel =
      ⟨.raised (.rateLimit m), 3, [250, 250]⟩ := by
  have hcast : cast_error result = .classified (.rateLimit m) := by
    rw [cast_error_str_msg result resp st m hresp hstat hmsg, hc]
    simp
  have hout : attemptOutcome (some result) =
      .apiError (.classified (.rateLimit m)) := by
    rw [attemptOutcome_fail result resp st hresp hstat hne, hcast]
  obtain ⟨f, rfl⟩ : ∃ f, fuel = f + 1 + 1 + 1 := ⟨fuel - 3, by omega⟩
  simp [send, sendAux, hout, shouldRetry, isRateLimit]

/-- C1 witness. -/
theorem send_rate_limit_three_attempts_witness :
    send (.count 3) ⟨[], "Offer", none⟩
      (some (.obj [("response", .obj
        [("status", .num 0),
         ("errorMessage", .str "API usage exceeded rate limit")])])) 3 =
      ⟨.raised (.rateLimit "API usage exceeded rate limit"), 3, [250, 250]⟩ :=
  send_rate_limit_three_attempts ⟨[], "Offer", none⟩ _ _ _ _ 3
    rfl rfl rfl rfl rfl (by omega)

/-- C2: for a `status != 1` response whose string errorMessage does not
contain the rate-limit text, under every retry policy the dispatcher
raises the classified (generic) error right after the first attempt, with
no resend and no pause. -/
theorem send_other_error_no_retry (policy : RetryPolicy) (req : Request)
    (result resp st : Json) (m : String) (fuel : Nat)
    (hresp : jget result "response" = some resp)
    (hstat : jget resp "status" = some st)
    (hne : pyEqOne st = false)
    (hmsg : jget resp "errorMessage" = some (.str m))
    (hc : pyInStr RATE_LIMIT_MSG m = false)
    (hfuel : 1 ≤ fuel) :
    send policy req (some result) fuel =
      ⟨.raised (.generic m), 1, []⟩ := by
  have hcast : cast_error result = .classified (.generic m) := by
    rw [cast_error_str_msg result resp st m hresp hstat hmsg, hc]
    simp
  have hout : attemptOutcome (some result) =
      .apiError (.classified (.generic m)) := by
    rw [attemptOutcome_fail result resp st hresp hstat hne, hcast]
  obtain ⟨f, rfl⟩ : ∃ f, fuel = f + 1 := ⟨fuel - 1, by omega⟩
  simp [send, sendAux, hout, isRateLimit]

/-- C2 witness. -/
theorem send_other_error_no_retry_witness :
    send .tillSuccess ⟨[], "Offer", none⟩
      (some (.obj [("response", .obj
        [("status", .num 0),
         ("errorMessage", .str "Invalid Network Token")])])) 5 =
      ⟨.raised (.generic "Invalid Network Token"), 1, []⟩ :=
  send_other_error_no_retry .tillSuccess ⟨[], "Offer", none⟩ _ _ _ _ 5
    rfl rfl rfl rfl rfl (by omega)

/-- C6: at the failing input, a body whose `response` object is present
but lacks `status`, send raises an uncaught KeyError from the status
access in the envelope check; cast_error's graceful missing-status branch
is never reached, so no MalformedResponse-style library error is
produced. -/
theorem send_missing_status_uncaught_keyerror :
    send (.count 1) ⟨[], "Offer", none⟩
      (some (.obj [("response", .obj [("data", .obj [])])])) 1 =
      ⟨.uncaught .keyError, 1, []⟩ := rfl

/-- C10: for a `status != 1` response whose errorMessage is JSON null,
the classifier itself crashes with a TypeError (substring test on null),
so send raises an exception that is none of the classified library
errors, under every retry policy. -/
theorem send_null_error_message_type_error (policy : RetryPolicy)
    (req : Request) (result resp st : Json) (fuel : Nat)
    (hresp : jget result "response" = some resp)
    (hstat : jget resp "status" = some st)
    (hne : pyEqOne st = false)
    (hmsg : jget resp "errorMessage" = some .null)
    (hfuel : 1 ≤ fuel) :
    cast_error result = .crash .typeError ∧
    send policy req (some result) fuel =
      ⟨.uncaught .typeError, 1, []⟩ := by
  have hcast : cast_error result = .crash .typeError := by
    simp only [cast_error, hresp, hstat, hmsg]
  refine ⟨hcast, ?_⟩
  have hout : attemptOutcome (some result) = .apiError (.crash .typeError) := by
    rw [attemptOutcome_fail result resp st hresp hstat hne, hcast]
  obtain ⟨f, rfl⟩ : ∃ f, fuel = f + 1 := ⟨fuel - 1, by omega⟩
  simp [send, sendAux, hout]

/-- C10 witness. -/
theorem send_null_error_message_type_error_witness :
    cast_error (.obj [("response", .obj
      [("status", .num 0), ("errorMessage", Json.null)])]) = .crash .typeError ∧
    send (.count 3) ⟨[], "Offer", none⟩
      (some (.obj [("response", .obj
        [("status", .num 0), ("errorMessage", Json.null)])])) 3 =
      ⟨.uncaught .typeError, 1, []⟩ :=
  send_null_error_message_type_error (.count 3) ⟨[], "Offer", none⟩ _ _ _ 3
    rfl rfl rfl rfl (by omega)

/-- Successful mapItems runs element-wise: each keyed item contributes the
entity made from `item[model_name]` with the item attached as raw_data, in
iteration order. -/
theorem mapItems_forall₂ (mn : Json) (kvs : List (String × Json))
    (es : List Entity)
    (h : HasoffersDataMapper.mapItems mn kvs = .ok es) :
    List.Forall₂ (fun p e => ∃ frag e0,
      jgetJ p.2 mn = some frag ∧
      HasoffersDataMapper.map_one mn frag = .ok e0 ∧
      e = attachRaw e0 p.2) kvs es := by
  induction kvs generalizing es with
  | nil =>
    simp only [HasoffersDataMapper.mapItems] at h
    cases h
    exact .nil
  | cons p rest ih =>
    obtain ⟨k, scope⟩ := p
    cases hfrag : jgetJ scope mn with
    | none =>
      simp only [HasoffersDataMapper.mapItems, HasoffersDataMapper.mapScope,
        hfrag] at h
      cases h
    | some frag =>
      cases hone : HasoffersDataMapper.map_one mn frag with
      | error c =>
        simp only [HasoffersDataMapper.mapItems, HasoffersDataMapper.mapScope,
          hfrag, hone, Except.map] at h
        cases h
      | ok e0 =>
        cases hrest : HasoffersDataMapper.mapItems mn rest with
        | error c =>
          simp only [HasoffersDataMapper.mapItems, HasoffersDataMapper.mapScope,
            hfrag, hone, hrest, Except.map] at h
          cases h
        | ok es' =>
          simp only [HasoffersDataMapper.mapItems, HasoffersDataMapper.mapScope,
            hfrag, hone, hrest, Except.map] at h
          cases h
          exact .cons ⟨frag, e0, hfrag, hone, rfl⟩ (ih es' hrest)

/-- C4: for a COLLECTION-shaped response without a limit parameter, an
empty keyed collection maps to null, and a non-empty one maps to one
Entity per key, in iteration order, each built from `item[model_name]`
with the item attached as raw_data. -/
theorem map_collection_entities (req : Request) (tgt mth : Json)
    (kvs : List (String × Json)) (es : List Entity)
    (hshape : mappingType tgt mth = COLLECTION)
    (hnolimit : dictGet req.params "limit" = none)
    (hitems : HasoffersDataMapper.mapItems
      (resolveModelName req.return_model tgt) kvs = .ok es) :
    (kvs = [] → HasoffersDataMapper.map req ⟨tgt, mth, .obj kvs⟩ =
      .ok .noneVal) ∧
    (kvs ≠ [] → HasoffersDataMapper.map req ⟨tgt, mth, .obj kvs⟩ =
        .ok (.many es) ∧
      List.Forall₂ (fun p e => ∃ frag e0,
        jgetJ p.2 (resolveModelName req.return_model tgt) = some frag ∧
        HasoffersDataMapper.map_one (resolveModelName req.return_model tgt)
          frag = .ok e0 ∧
        e = attachRaw e0 p.2) kvs es) := by
  have hreduce : HasoffersDataMapper.map req ⟨tgt, mth, .obj kvs⟩ =
      collectionResult (HasoffersDataMapper.map_to_collection
        (resolveModelName req.return_model tgt) (.obj kvs)) := by
    simp [HasoffersDataMapper.map, hshape, COLLECTION, OBJECT, limitCheck,
      hnolimit]
  constructor
  · rintro rfl
    simp [hreduce, HasoffersDataMapper.map_to_collection, pyLen,
      collectionResult, Except.map]
  · intro hne
    refine ⟨?_, mapItems_forall₂ _ _ _ hitems⟩
    cases kvs with
    | nil => exact absurd rfl hne
    | cons p rest =>
      rw [hreduce]
      simp [HasoffersDataMapper.map_to_collection, pyLen, hitems,
        collectionResult, Except.map]

/-- C4 witness. -/
theorem map_collection_entities_witness :
    HasoffersDataMapper.map ⟨[], "Offer", none⟩ ⟨.str "Offer", .str "findAll",
      .obj [("100", .obj [("Offer", .obj [("id", .str "1"), ("name", .str "a")])]),
            ("101", .obj [("Offer", .obj [("id", .str "2")])]),
            ("102", .obj [("Offer", .obj [("id", .num 3)])])]⟩ =
      .ok (.many
        [⟨[("id", .num 1), ("name", .str "a"),
           ("raw_data", .obj [("Offer", .obj [("id", .str "1"), ("name", .str "a")])])]⟩,
         ⟨[("id", .num 2),
           ("raw_data", .obj [("Offer", .obj [("id", .str "2")])])]⟩,
         ⟨[("id", .num 3),
           ("raw_data", .obj [("Offer", .obj [("id", .num 3)])])]⟩]) :=
  ((map_collection_entities ⟨[], "Offer", none⟩ (.str "Offer") (.str "findAll")
    [("100", .obj [("Offer", .obj [("id", .str "1"), ("name", .str "a")])]),
     ("101", .obj [("Offer", .obj [("id", .str "2")])]),
     ("102", .obj [("Offer", .obj [("id", .num 3)])])]
    [⟨[("id", .num 1), ("name", .str "a"),
       ("raw_data", .obj [("Offer", .obj [("id", .str "1"), ("name", .str "a")])])]⟩,
     ⟨[("id", .num 2),
       ("raw_data", .obj [("Offer", .obj [("id", .str "2")])])]⟩,
     ⟨[("id", .num 3),
       ("raw_data", .obj [("Offer", .obj [("id", .num 3)])])]⟩]
    rfl rfl rfl).2 (by simp)).1

/-- C5: for an OBJECT-shaped response, empty data maps to null, and
non-empty data maps to exactly one Entity built from `data[model_name]`
(the request's override if present, else the target) with the whole data
value attached verbatim as raw_data. -/
theorem map_object_entity (req : Request) (tgt mth : Json)
    (hshape : mappingType tgt mth = OBJECT) :
    (HasoffersDataMapper.map req ⟨tgt, mth, .obj []⟩ = .ok .noneVal) ∧
    (∀ dkvs frag e, dkvs ≠ [] →
      jgetJ (.obj dkvs) (resolveModelName req.return_model tgt) = some frag →
      HasoffersDataMapper.map_one (resolveModelName req.return_model tgt)
        frag = .ok e →
      HasoffersDataMapper.map req ⟨tgt, mth, .obj dkvs⟩ =
        .ok (.one (attachRaw e (.obj dkvs)))) := by
  constructor
  · simp [HasoffersDataMapper.map, hshape, OBJECT,
      HasoffersDataMapper.map_one_object, pyLen, Except.map]
  · intro dkvs frag e hne hfrag hone
    cases dkvs with
    | nil => exact absurd rfl hne
    | cons p rest =>
      simp [HasoffersDataMapper.map, hshape, OBJECT,
        HasoffersDataMapper.map_one_object, pyLen, hfrag, hone, Except.map]

/-- C5 witness. -/
theorem map_object_entity_witness :
    HasoffersDataMapper.map ⟨[], "Offer", none⟩
      ⟨.str "Offer", .str "findById", .obj []⟩ = .ok .noneVal ∧
    HasoffersDataMapper.map ⟨[], "Offer", none⟩
      ⟨.str "Offer", .str "findById",
        .obj [("Offer", .obj [("id", .str "9")])]⟩ =
      .ok (.one ⟨[("id", .num 9),
        ("raw_data", .obj [("Offer", .obj [("id", .str "9")])])]⟩) :=
  ⟨(map_object_entity ⟨[], "Offer", none⟩ (.str "Offer") (.str "findById")
      rfl).1,
   (map_object_entity ⟨[], "Offer", none⟩ (.str "Offer") (.str "findById")
      rfl).2 [("Offer", .obj [("id", .str "9")])]
      (.obj [("id", .str "9")]) ⟨[("id", .num 9)]⟩ (by simp) rfl rfl⟩

/-- C3: for a COLLECTION-shaped response, a positive numeric limit makes
the mapper read the keyed collection one level under data, no limit makes
it read data directly, and the mapped result is identical for the same
items in either layout. -/
theorem map_limit_unwrap (tgt mth : Json)
    (hshape : mappingType tgt mth = COLLECTION) :
    (∀ (req : Request) (v : Json) (n : Int) dkvs D,
      dictGet req.params "limit" = some v → pyTruthy v = true →
      pyToInt v = some n → 0 < n → dictGet dkvs "data" = some D →
      HasoffersDataMapper.map req ⟨tgt, mth, .obj dkvs⟩ =
        collectionResult (HasoffersDataMapper.map_to_collection
          (resolveModelName req.return_model tgt) D)) ∧
    (∀ (req : Request) (D : Json),
      dictGet req.params "limit" = none →
      HasoffersDataMapper.map req ⟨tgt, mth, D⟩ =
        collectionResult (HasoffersDataMapper.map_to_collection
          (resolveModelName req.return_model tgt) D)) ∧
    (∀ (req1 req2 : Request) (v : Json) (n : Int) (D : Json),
      req1.return_model = req2.return_model →
      dictGet req1.params "limit" = some v → pyTruthy v = true →
      pyToInt v = some n → 0 < n →
      dictGet req2.params "limit" = none →
      HasoffersDataMapper.map req1 ⟨tgt, mth, .obj [("data", D)]⟩ =
        HasoffersDataMapper.map req2 ⟨tgt, mth, D⟩) := by
  have ha : ∀ (req : Request) (v : Json) (n : Int) dkvs D,
      dictGet req.params "limit" = some v → pyTruthy v = true →
      pyToInt v = some n → 0 < n → dictGet dkvs "data" = some D →
      HasoffersDataMapper.map req ⟨tgt, mth, .obj dkvs⟩ =
        collectionResult (HasoffersDataMapper.map_to_collection
          (resolveModelName req.return_model tgt) D) := by
    intro req v n dkvs D hlimit htruthy hint hpos hdata
    have hd : decide (0 < n) = true := decide_eq_true hpos
    simp [HasoffersDataMapper.map, hshape, COLLECTION, OBJECT, limitCheck,
      hlimit, htruthy, hint, hd, unwrapData, hdata]
  have hb : ∀ (req : Request) (D : Json),
      dictGet req.params "limit" = none →
      HasoffersDataMapper.map req ⟨tgt, mth, D⟩ =
        collectionResult (HasoffersDataMapper.map_to_collection
          (resolveModelName req.return_model tgt) D) := by
    intro req D hnolimit
    simp [HasoffersDataMapper.map, hshape, COLLECTION, OBJECT, limitCheck,
      hnolimit]
  refine ⟨ha, hb, ?_⟩
  intro req1 req2 v n D hrm h1 h2 h3 h4 h5
  rw [ha req1 v n [("data", D)] D h1 h2 h3 h4 rfl, hb req2 D h5, hrm]

/-- C3 witness. -/
theorem map_limit_unwrap_witness :
    HasoffersDataMapper.map ⟨[("limit", .num 10)], "Offer", none⟩
      ⟨.str "Offer", .str "findAll", .obj [("data",
        .obj [("7", .obj [("Offer", .obj [("id", .num 7)])])])]⟩ =
    HasoffersDataMapper.map ⟨[], "Offer", none⟩
      ⟨.str "Offer", .str "findAll",
        .obj [("7", .obj [("Offer", .obj [("id", .num 7)])])]⟩ :=
  (map_limit_unwrap (.str "Offer") (.str "findAll") rfl).2.2
    ⟨[("limit", .num 10)], "Offer", none⟩ ⟨[], "Offer", none⟩ (.num 10) 10
    (.obj [("7", .obj [("Offer", .obj [("id", .num 7)])])])
    rfl rfl rfl rfl (by decide) rfl

/-- C7: a (resource, method) pair absent from the classification table
defaults to the NO shape and the mapper hands the Response back to the
caller unchanged. -/
theorem map_default_passthrough (req : Request) (resp : Response)
    (habs : tableLookup resp.target resp.method = none) :
    mappingType resp.target resp.method = NO ∧
    HasoffersDataMapper.map req resp = .ok (.passthrough resp) := by
  have hmt : mappingType resp.target resp.method = NO := by
    simp [mappingType, habs]
  refine ⟨hmt, ?_⟩
  simp [HasoffersDataMapper.map, hmt, NO, OBJECT, COLLECTION]

/-- C7 witness. -/
theorem map_default_passthrough_witness :
    mappingType (.str "Conversion") (.str "findById") = NO ∧
    HasoffersDataMapper.map ⟨[], "Conversion", none⟩
      ⟨.str "Conversion", .str "findById", .obj [("x", .num 1)]⟩ =
      .ok (.passthrough ⟨.str "Conversion", .str "findById",
        .obj [("x", .num 1)]⟩) :=
  map_default_passthrough ⟨[], "Conversion", none⟩
    ⟨.str "Conversion", .str "findById", .obj [("x", .num 1)]⟩ rfl

/-- A successful initFields run preserves every lookup except `id`, whose
value goes through the int coercion; absent keys stay absent. -/
theorem initFields_lookup (kvs fs : List (String × Json))
    (h : initFields kvs = .ok fs) :
    (∀ k v, k ≠ "id" → dictGet kvs k = some v → dictGet fs k = some v) ∧
    (∀ v n, dictGet kvs "id" = some v → pyToInt v = some n →
      dictGet fs "id" = some (.num n)) ∧
    (∀ k, dictGet kvs k = none → dictGet fs k = none) := by
  induction kvs generalizing fs with
  | nil =>
    simp only [initFields] at h
    cases h
    refine ⟨?_, ?_, ?_⟩
    · intro k v _ hv; simp [dictGet] at hv
    · intro v n hv _; simp [dictGet] at hv
    · intro k _; simp [dictGet]
  | cons p rest ih =>
    obtain ⟨k0, v0⟩ := p
    by_cases hid : k0 = "id"
    · subst hid
      simp only [initFields, if_pos rfl] at h
      cases hto : pyToInt v0 with
      | none => rw [hto] at h; cases h
      | some n0 =>
        rw [hto] at h
        cases hrest : initFields rest with
        | error c => rw [hrest] at h; cases h
        | ok fs' =>
          rw [hrest] at h
          simp only [Except.map] at h
          cases h
          obtain ⟨ih1, ih2, ih3⟩ := ih fs' hrest
          refine ⟨?_, ?_, ?_⟩
          · intro k v hk hv
            simp only [dictGet] at hv ⊢
            rw [if_neg (fun hh => hk hh.symm)] at hv
            rw [if_neg (fun hh => hk hh.symm)]
            exact ih1 k v hk hv
          · intro v n hv hn
            simp only [dictGet, if_pos rfl] at hv ⊢
            cases hv
            rw [hto] at hn
            cases hn
            rfl
          · intro k hk
            simp only [dictGet] at hk ⊢
            by_cases he : "id" = k
            · rw [if_pos he] at hk; cases hk
            · rw [if_neg he] at hk ⊢; exact ih3 k hk
    · simp only [initFields, if_neg hid] at h
      cases hrest : initFields rest with
      | error c => rw [hrest] at h; cases h
      | ok fs' =>
        rw [hrest] at h
        simp only [Except.map] at h
        cases h
        obtain ⟨ih1, ih2, ih3⟩ := ih fs' hrest
        refine ⟨?_, ?_, ?_⟩
        · intro k v hk hv
          simp only [dictGet] at hv ⊢
          by_cases he : k0 = k
          · rw [if_pos he] at hv ⊢; exact hv
          · rw [if_neg he] at hv ⊢; exact ih1 k v hk hv
        · intro v n hv hn
          simp only [dictGet] at hv ⊢
          rw [if_neg hid] at hv ⊢
          exact ih2 v n hv hn
        · intro k hk
          simp only [dictGet] at hk ⊢
          by_cases he : k0 = k
          · rw [if_pos he] at hk; cases hk
          · rw [if_neg he] at hk ⊢; exact ih3 k hk

/-- C8 counterexample: the claim quantifies over every JSON object
fragment, but a fragment whose `id` is null makes the constructor crash
(`int(None)` raises), so no Entity is produced at all. -/
theorem model_init_id_null_crashes :
    Model.init (.obj [("id", Json.null)]) = .error .typeError := rfl

/-- C8 (amended): for every JSON object fragment on which Entity
construction succeeds (each `id` value must be int-coercible, otherwise
the constructor raises), reading back the fields yields the input values
for every field except one literally named `id`, whose value is coerced
to an integer. -/
theorem model_init_round_trip (kvs fs : List (String × Json))
    (h : initFields kvs = .ok fs) :
    Model.init (.obj kvs) = .ok ⟨fs⟩ ∧
    (∀ k v, k ≠ "id" → dictGet kvs k = some v → dictGet fs k = some v) ∧
    (∀ v n, dictGet kvs "id" = some v → pyToInt v = some n →
      dictGet fs "id" = some (.num n)) ∧
    (∀ k, dictGet kvs k = none → dictGet fs k = none) :=
  ⟨by simp [Model.init, h, Except.map], initFields_lookup kvs fs h⟩

/-- C8 witness. -/
theorem model_init_round_trip_witness :
    Model.init (.obj [("id", Json.str "42"), ("name", Json.str "bob")]) =
      .ok ⟨[("id", Json.num 42), ("name", Json.str "bob")]⟩ ∧
    dictGet [("id", Json.num 42), ("name", Json.str "bob")] "id" =
      some (Json.num 42) ∧
    dictGet [("id", Json.num 42), ("name", Json.str "bob")] "name" =
      some (Json.str "bob") :=
  ⟨(model_init_round_trip [("id", Json.str "42"), ("name", Json.str "bob")]
      [("id", Json.num 42), ("name", Json.str "bob")] rfl).1,
   (model_init_round_trip [("id", Json.str "42"), ("name", Json.str "bob")]
      [("id", Json.num 42), ("name", Json.str "bob")] rfl).2.2.1
      (Json.str "42") 42 rfl rfl,
   (model_init_round_trip [("id", Json.str "42"), ("name", Json.str "bob")]
      [("id", Json.num 42), ("name", Json.str "bob")] rfl).2.1
      "name" (Json.str "bob") (by decide) rfl⟩

/-- Appending a differently keyed pair does not change a lookup. -/
theorem dictGet_append_right {α : Type} (xs : List (String × α))
    (k k2 : String) (v : α) (h : k2 ≠ k) :
    dictGet (xs ++ [(k2, v)]) k = dictGet xs k := by
  induction xs with
  | nil => simp [dictGet, h]
  | cons p rest ih =>
    obtain ⟨k0, v0⟩ := p
    simp only [List.cons_append, dictGet]
    by_cases he : k0 = k
    · rw [if_pos he, if_pos he]
    · rw [if_neg he, if_neg he]; exact ih

/-- Appending a fresh key makes it found. -/
theorem dictGet_append_self {α : Type} (xs : List (String × α))
    (k : String) (v : α) (h : dictGet xs k = none) :
    dictGet (xs ++ [(k, v)]) k = some v := by
  induction xs with
  | nil => simp [dictGet]
  | cons p rest ih =>
    obtain ⟨k0, v0⟩ := p
    simp only [dictGet] at h
    by_cases he : k0 = k
    · rw [if_pos he] at h; cases h
    · rw [if_neg he] at h
      simp only [List.cons_append, dictGet, if_neg he]
      exact ih h

/-- A conditional append under a different key never disturbs a lookup. -/
theorem dictGet_appendIf_ne (xs : List (String × Json)) (k2 k : String)
    (v : Json) (h : k2 ≠ k) :
    dictGet (appendIf xs k2 v) k = dictGet xs k := by
  unfold appendIf
  split
  · exact dictGet_append_right xs k k2 v h
  · rfl

/-- A conditional append under its own key behaves as the truthiness
test: found when truthy, absent when falsy (given a fresh key). -/
theorem dictGet_appendIf_self (xs : List (String × Json)) (k : String)
    (v : Json) (h : dictGet xs k = none) :
    dictGet (appendIf xs k v) k = if pyTruthy v then some v else none := by
  unfold appendIf
  cases hv : pyTruthy v
  · simpa [hv] using h
  · simp [hv, dictGet_append_self xs k v h]

/-- C9 counterexample: Offer.find_by_id with its default empty-list
arguments still sends `fields` and `contain`, so a falsy optional
argument is not omitted from the outgoing parameters. -/
theorem find_by_id_sends_falsy_placeholders :
    dictGet (Offer.find_by_id (Json.num 5) (Json.arr []) (Json.arr []))
      "fields" = some (Json.arr []) ∧
    pyTruthy (Json.arr []) = false ∧
    dictGet (Offer.find_by_id (Json.num 5) (Json.arr []) (Json.arr []))
      "contain" = some (Json.arr []) := ⟨rfl, rfl, rfl⟩

/-- C9 (amended): every modeled operation always sets Method to its API
method name; the find_all builder includes an optional argument exactly
when it is truthy; but the find_by_id builders of Offer and Advertiser
send `fields` and `contain` unconditionally, even when falsy. -/
theorem builders_method_and_omission
    (filters sort limit page fields contain id_ : Json) :
    dictGet (Offer.find_all filters sort limit page fields contain)
      "Method" = some (Json.str "findAll") ∧
    (∀ k v, (k, v) ∈ [("filters", filters), ("sort", sort),
        ("limit", limit), ("page", page), ("fields", fields),
        ("contain", contain)] →
      dictGet (Offer.find_all filters sort limit page fields contain) k =
        if pyTruthy v then some v else none) ∧
    dictGet (Offer.find_by_id id_ fields contain) "Method" =
      some (Json.str "findById") ∧
    dictGet (Offer.find_by_id id_ fields contain) "fields" = some fields ∧
    dictGet (Offer.find_by_id id_ fields contain) "contain" = some contain ∧
    dictGet (Advertiser.find_by_id id_ fields contain) "Method" =
      some (Json.str "findById") ∧
    dictGet (Advertiser.find_by_id id_ fields contain) "fields" =
      some fields ∧
    dictGet (Advertiser.find_by_id id_ fields contain) "contain" =
      some contain := by
  refine ⟨?_, ?_, rfl, rfl, rfl, rfl, rfl, rfl⟩
  · unfold Offer.find_all
    rw [dictGet_appendIf_ne _ _ _ _ (by decide),
        dictGet_appendIf_ne _ _ _ _ (by decide),
        dictGet_appendIf_ne _ _ _ _ (by decide),
        dictGet_appendIf_ne _ _ _ _ (by decide),
        dictGet_appendIf_ne _ _ _ _ (by decide),
        dictGet_appendIf_ne _ _ _ _ (by decide)]
    rfl
  · intro k v hkv
    simp only [List.mem_cons, List.not_mem_nil, or_false, Prod.mk.injEq] at hkv
    rcases hkv with ⟨rfl, rfl⟩ | ⟨rfl, rfl⟩ | ⟨rfl, rfl⟩ | ⟨rfl, rfl⟩ |
      ⟨rfl, rfl⟩ | ⟨rfl, rfl⟩
    · unfold Offer.find_all
      rw [dictGet_appendIf_ne _ _ _ _ (by decide),
          dictGet_appendIf_ne _ _ _ _ (by decide),
          dictGet_appendIf_ne _ _ _ _ (by decide),
          dictGet_appendIf_ne _ _ _ _ (by decide),
          dictGet_appendIf_ne _ _ _ _ (by decide)]
      exact dictGet_appendIf_self _ _ _ rfl
    · unfold Offer.find_all
      rw [dictGet_appendIf_ne _ _ _ _ (by decide),
          dictGet_appendIf_ne _ _ _ _ (by decide),
          dictGet_appendIf_ne _ _ _ _ (by decide),
          dictGet_appendIf_ne _ _ _ _ (by decide)]
      refine dictGet_appendIf_self _ _ _ ?_
      rw [dictGet_appendIf_ne _ _ _ _ (by decide)]
      rfl
    · unfold Offer.find_all
      rw [dictGet_appendIf_ne _ _ _ _ (by decide),
          dictGet_appendIf_ne _ _ _ _ (by decide),
          dictGet_appendIf_ne _ _ _ _ (by decide)]
      refine dictGet_appendIf_self _ _ _ ?_
      rw [dictGet_appendIf_ne _ _ _ _ (by decide),
          dictGet_appendIf_ne _ _ _ _ (by decide)]
      rfl
    · unfold Offer.find_all
      rw [dictGet_appendIf_ne _ _ _ _ (by decide),
          dictGet_appendIf_ne _ _ _ _ (by decide)]
      refine dictGet_appendIf_self _ _ _ ?_
      rw [dictGet_appendIf_ne _ _ _ _ (by decide),
          dictGet_appendIf_ne _ _ _ _ (by decide),
          dictGet_appendIf_ne _ _ _ _ (by decide)]
      rfl
    · unfold Offer.find_all
      rw [dictGet_appendIf_ne _ _ _ _ (by decide)]
      refine dictGet_appendIf_self _ _ _ ?_
      rw [dictGet_appendIf_ne _ _ _ _ (by decide),
          dictGet_appendIf_ne _ _ _ _ (by decide),
          dictGet_appendIf_ne _ _ _ _ (by decide),
          dictGet_appendIf_ne _ _ _ _ (by decide)]
      rfl
    · unfold Offer.find_all
      refine dictGet_appendIf_self _ _ _ ?_
      rw [dictGet_appendIf_ne _ _ _ _ (by decide),
          dictGet_appendIf_ne _ _ _ _ (by decide),
          dictGet_appendIf_ne _ _ _ _ (by decide),
          dictGet_appendIf_ne _ _ _ _ (by decide),
          dictGet_appendIf_ne _ _ _ _ (by decide)]
      rfl

/-- C9 witness. -/
theorem builders_method_and_omission_witness :
    dictGet (Offer.find_all Json.null Json.null Json.null Json.null
      Json.null Json.null) "Method" = some (Json.str "findAll") ∧
    dictGet (Offer.find_all Json.null Json.null Json.null Json.null
      Json.null Json.null) "filters" = none ∧
    dictGet (Offer.find_by_id (Json.num 7) (Json.arr []) (Json.arr []))
      "contain" = some (Json.arr []) :=
by
  refine ⟨?_, ?_, ?_⟩
  · exact (builders_method_and_omission Json.null Json.null Json.null
      Json.null Json.null Json.null (Json.num 7)).1
  · simpa using (builders_method_and_omission Json.null Json.null
      Json.null Json.null Json.null Json.null (Json.num 7)).2.1
      "filters" Json.null (by simp)
  · exact (builders_method_and_omission Json.null Json.null Json.null
      Json.null (Json.arr []) (Json.arr []) (Json.num 7)).2.2.2.2.1
